import Mathlib

/-!
A shallow embedding of `windscan.py`, a four-step HYSPLIT job-submission
workflow against a remote web service, together with theorems checking the
repository's specification against it.

Numeric job parameters (latitude, longitude) are modelled as rationals; the
6-fractional-digit rendering used by the Python format specifier `:.6f` is
modelled by round-half-even fixed-point rendering.  HTTP traffic is modelled
by an explicit transport oracle mapping each request to a response or a
transport failure, and the workflow functions return, besides the Python
return value, the list of requests issued, the files written and the log of
printed messages, so that claims about "no request is sent" and "the detail
is only printed" are statable.
-/

namespace Windscan

/-! ## Generic list/string utilities -/

/-- Bool test: `pat` is a prefix of `s` (exact characters). -/
def listStartsWith : List Char → List Char → Bool
  | [], _ => true
  | _ :: _, [] => false
  | p :: ps, c :: cs => p == c && listStartsWith ps cs

/-- Bool test: `pat` occurs as a contiguous run inside `s`. -/
def containsSub (s pat : List Char) : Bool :=
  match s with
  | [] => listStartsWith pat []
  | _ :: cs => listStartsWith pat s || containsSub cs pat

/-- Substring test on strings (models Python's `in` on `str`). -/
def containsStr (s pat : String) : Bool :=
  containsSub s.data pat.data

/-- Lower-casing of a string (models Python `str.lower` for ASCII). -/
def lowerStr (s : String) : String :=
  String.mk (s.data.map Char.toLower)

/-- Case-insensitive character equality, as under `re.IGNORECASE`. -/
def charEqCI (a b : Char) : Bool :=
  a.toLower == b.toLower

/-- Number of characters after the last `.` of a rendered number. -/
def fracLen (s : String) : Nat :=
  (s.data.reverse.takeWhile (fun c => c != '.')).length

theorem listStartsWith_refl_append (pat rest : List Char) :
    listStartsWith pat (pat ++ rest) = true := by
  induction pat with
  | nil => rfl
  | cons p ps ih => simp [listStartsWith, ih]

theorem containsSub_of_append (a pat b : List Char) :
    containsSub (a ++ (pat ++ b)) pat = true := by
  induction a with
  | nil =>
    have h := listStartsWith_refl_append pat b
    cases pat with
    | nil => cases b <;> simp [containsSub, listStartsWith]
    | cons p ps =>
      rw [List.cons_append] at h
      simp only [List.nil_append, List.cons_append, containsSub]
      rw [h]
      simp
  | cons c cs ih => simp [containsSub, ih]

theorem takeWhile_append_stop (p : Char → Bool) (l r : List Char) (x : Char)
    (hl : ∀ c ∈ l, p c = true) (hx : p x = false) :
    ((l ++ x :: r).takeWhile p) = l := by
  induction l with
  | nil => simp [List.takeWhile, hx]
  | cons c cs ih =>
    have hc : p c = true := hl c (by simp)
    have ih2 := ih (fun d hd => hl d (by simp [hd]))
    simp [List.takeWhile, hc, ih2]

/-! ## Fixed-point decimal rendering (Python `:.6f`) -/

/-- Round-half-even of a rational to an integer (Python float formatting
rounds ties to even). -/
def roundHalfEven (q : ℚ) : ℤ :=
  if q - Int.floor q < 1/2 then Int.floor q
  else if 1/2 < q - Int.floor q then Int.floor q + 1
  else if Int.floor q % 2 = 0 then Int.floor q else Int.floor q + 1

/-- The magnitude of `q`, scaled by `10^6` and rounded. -/
def scaled6 (q : ℚ) : ℕ :=
  (roundHalfEven (|q| * 1000000)).toNat

/-- The 6 fractional digits of a scaled magnitude `m < 10^6`, zero padded. -/
def frac6 (m : ℕ) : List Char :=
  [Nat.digitChar (m / 100000 % 10), Nat.digitChar (m / 10000 % 10),
   Nat.digitChar (m / 1000 % 10), Nat.digitChar (m / 100 % 10),
   Nat.digitChar (m / 10 % 10), Nat.digitChar (m % 10)]

/-- Sign prefix of the rendering. -/
def sign6 (q : ℚ) : List Char :=
  if q < 0 then ['-'] else []

/-- Models the Python format specifier `:.6f` on the value `q`:
optional sign, integer part, `.`, then exactly six fractional digits. -/
def format6 (q : ℚ) : String :=
  String.mk (sign6 q ++ (toString (scaled6 q / 1000000)).data
    ++ '.' :: frac6 (scaled6 q % 1000000))

theorem digitChar_mod10_ne_dot (x : ℕ) :
    (Nat.digitChar (x % 10) != '.') = true := by
  have h : x % 10 < 10 := Nat.mod_lt _ (by norm_num)
  have hall : ∀ y < 10, (Nat.digitChar y != '.') = true := by decide
  exact hall _ h

theorem frac6_length (m : ℕ) : (frac6 m).length = 6 := rfl

theorem frac6_no_dot (m : ℕ) : ∀ c ∈ frac6 m, (c != '.') = true := by
  intro c hc
  simp only [frac6, List.mem_cons, List.mem_singleton, List.not_mem_nil,
    or_false] at hc
  rcases hc with h | h | h | h | h | h <;>
    (subst h; exact digitChar_mod10_ne_dot _)

/-- The `:.6f` rendering always carries exactly six digits after the
decimal point. -/
theorem fracLen_format6 (q : ℚ) : fracLen (format6 q) = 6 := by
  unfold fracLen format6
  have hdata :
      (String.mk (sign6 q ++ (toString (scaled6 q / 1000000)).data
        ++ '.' :: frac6 (scaled6 q % 1000000))).data
      = sign6 q ++ (toString (scaled6 q / 1000000)).data
        ++ '.' :: frac6 (scaled6 q % 1000000) := rfl
  rw [hdata]
  rw [List.reverse_append, List.reverse_append, List.reverse_cons]
  rw [List.append_assoc, List.singleton_append]
  rw [takeWhile_append_stop (fun c => c != '.')
    ((frac6 (scaled6 q % 1000000)).reverse) _ '.'
    (fun c hc => frac6_no_dot _ c (List.mem_reverse.mp hc)) (by decide)]
  simp [frac6_length]

theorem roundHalfEven_intCast (n : ℤ) : roundHalfEven ((n : ℤ) : ℚ) = n := by
  unfold roundHalfEven
  rw [Int.floor_intCast]
  rw [if_pos (by norm_num : ((n : ℚ) - (n : ℚ) < 1/2))]

theorem scaled6_eq (q : ℚ) (k : ℕ) (h : |q| * 1000000 = (k : ℚ)) :
    scaled6 q = k := by
  unfold scaled6
  rw [h, show ((k : ℚ)) = (((k : ℤ) : ℚ)) from by push_cast; ring,
    roundHalfEven_intCast]
  simp

theorem format6_eq_of_nonneg (q : ℚ) (k : ℕ) (hq : ¬ q < 0)
    (h : |q| * 1000000 = (k : ℚ)) :
    format6 q =
      String.mk ((toString (k / 1000000)).data
        ++ '.' :: frac6 (k % 1000000)) := by
  unfold format6 sign6
  rw [if_neg hq, scaled6_eq q k h, List.nil_append]

theorem format6_eq_of_neg (q : ℚ) (k : ℕ) (hq : q < 0)
    (h : |q| * 1000000 = (k : ℚ)) :
    format6 q =
      String.mk ('-' :: ((toString (k / 1000000)).data
        ++ '.' :: frac6 (k % 1000000))) := by
  unfold format6 sign6
  rw [if_pos hq, scaled6_eq q k h]
  rfl

theorem format6_lat_default : format6 (41.98 : ℚ) = "41.980000" := by
  rw [format6_eq_of_nonneg (41.98 : ℚ) 41980000 (by norm_num)
    (by rw [abs_of_nonneg (by norm_num : (0 : ℚ) ≤ 41.98)]; norm_num)]
  decide

theorem format6_lon_default : format6 (-87.9 : ℚ) = "-87.900000" := by
  rw [format6_eq_of_neg (-87.9 : ℚ) 87900000 (by norm_num)
    (by rw [abs_of_neg (by norm_num : (-87.9 : ℚ) < 0)]; norm_num)]
  decide

/-! ## Validation and derived values (`_get_month_abbr`,
`_get_gdas_week_num`, the zero-padded year and the `mfile` name) -/

/-- The twelve lowercase month labels produced by
`datetime.date(2000, month, 1).strftime('%b').lower()`. -/
def monthAbbrs : List String :=
  ["jan", "feb", "mar", "apr", "may", "jun",
   "jul", "aug", "sep", "oct", "nov", "dec"]

/-- `_get_month_abbr`: the 3-letter lowercase month abbreviation; raises
`ValueError` (modelled as `.error`) outside 1..12, as `datetime.date` does. -/
def get_month_abbr (month : ℤ) : Except String String :=
  if 1 ≤ month ∧ month ≤ 12 then
    .ok (monthAbbrs.getD (month - 1).toNat "")
  else
    .error "Invalid month provided. Must be between 1 and 12."

/-- `_get_gdas_week_num`: the GDAS week number (1-5) from the day of
month; raises `ValueError` outside 1..31. -/
def get_gdas_week_num (day : ℤ) : Except String ℕ :=
  if 1 ≤ day ∧ day ≤ 7 then .ok 1
  else if 8 ≤ day ∧ day ≤ 14 then .ok 2
  else if 15 ≤ day ∧ day ≤ 21 then .ok 3
  else if 22 ≤ day ∧ day ≤ 28 then .ok 4
  else if 29 ≤ day ∧ day ≤ 31 then .ok 5
  else .error "Invalid day provided. Must be between 1 and 31."

/-- The Python format `f"{start_year:02d}"`: decimal rendering zero padded
on the left to a minimum width of two. -/
def yearStr (y : ℤ) : String :=
  if 0 ≤ y ∧ y < 10 then "0" ++ toString y else toString y

/-- The meteorological data file name `gdas1.<abbr><year>.w<week>`. -/
def mfileName (abbr ys : String) (week : ℕ) : String :=
  "gdas1." ++ abbr ++ ys ++ ".w" ++ toString week

/-- The validation/derivation block at the top of `run_hysplit_job`:
month abbreviation first, then week number, then the padded year; the
first `ValueError` wins, as in the Python `try` block. -/
def validateDerive (year month day : ℤ) :
    Except String (String × ℕ × String) :=
  match get_month_abbr month with
  | .error e => .error e
  | .ok abbr =>
    match get_gdas_week_num day with
    | .error e => .error e
    | .ok week => .ok (abbr, week, yearStr year)

/-- The derived data file name of a parameter set, when validation
succeeds. -/
def dataFileName (year month day : ℤ) : Option String :=
  match validateDerive year month day with
  | .ok (abbr, week, ys) => some (mfileName abbr ys week)
  | .error _ => none

/-! ## Job identifier extraction (the step-5 block of `run_hysplit_job`)

The two `re.search` calls are translated into explicit backtracking
matchers with the same semantics on the two source patterns (leftmost
starting position wins; `*` and `+` are greedy with backtracking), and
`urlparse`/`parse_qs` into explicit query-string parsing. -/

/-- The literal part `/hypub-bin/trajresults\.pl\?jobidno=` shared by both
source regexes. -/
def jobPathLit : List Char := "/hypub-bin/trajresults.pl?jobidno=".data

/-- Match a literal pattern case-insensitively at the head of `s`,
returning the remainder on success. -/
def matchLitCI : List Char → List Char → Option (List Char)
  | [], s => some s
  | _ :: _, [] => none
  | p :: ps, c :: cs => if charEqCI p c then matchLitCI ps cs else none

/-- Match `/hypub-bin/trajresults\.pl\?jobidno=(\d+)"` at the head of `s`,
returning the captured digits.  `(\d+)` is greedy; since the following
character must be `"`, taking the maximal digit run is exact. -/
def matchTail (s : List Char) : Option (List Char) :=
  match matchLitCI jobPathLit s with
  | none => none
  | some rest =>
    let p := rest.span Char.isDigit
    if p.1.isEmpty then none
    else
      match p.2 with
      | '"' :: _ => some p.1
      | _ => none

/-- Greedy `[^"]*` followed by the jobidno tail: the longest quote-free
consumption is tried first, backtracking towards shorter ones, as a
backtracking regex engine evaluates `[^"]*/hypub-bin/...`. -/
def starNotQuoteTail : List Char → Option (List Char)
  | [] => none
  | c :: cs =>
    if c = '"' then matchTail (c :: cs)
    else
      match starNotQuoteTail cs with
      | some ds => some ds
      | none => matchTail (c :: cs)

/-- ASCII whitespace matched by the pattern `\s`. -/
def isPySpace (c : Char) : Bool :=
  c == ' ' || c == '\t' || c == '\n' || c == '\r' || c == '\x0b' || c == '\x0c'

/-- Try the meta-refresh pattern
`CONTENT="\d+;\s*URL=[^"]*/hypub-bin/trajresults\.pl\?jobidno=(\d+)"`
(with `re.IGNORECASE`) at the head of `s`, returning the captured digits. -/
def metaMatchAt (s : List Char) : Option (List Char) :=
  match matchLitCI "CONTENT=\"".data s with
  | none => none
  | some r1 =>
    let p := r1.span Char.isDigit
    if p.1.isEmpty then none
    else
      match p.2 with
      | ';' :: r3 =>
        match matchLitCI "URL=".data (r3.dropWhile isPySpace) with
        | none => none
        | some r5 => starNotQuoteTail r5
      | _ => none

/-- Try the anchor pattern
`<a href="[^"]*/hypub-bin/trajresults\.pl\?jobidno=(\d+)"`
(with `re.IGNORECASE`) at the head of `s`. -/
def anchorMatchAt (s : List Char) : Option (List Char) :=
  match matchLitCI "<a href=\"".data s with
  | none => none
  | some r => starNotQuoteTail r

/-- `re.search` driver: scan starting positions left to right and return
the capture of the first position where the pattern matches. -/
def searchCapture (f : List Char → Option (List Char)) : List Char → Option String
  | [] =>
    match f [] with
    | some ds => some (String.mk ds)
    | none => none
  | c :: cs =>
    match f (c :: cs) with
    | some ds => some (String.mk ds)
    | none => searchCapture f cs

/-- The meta-refresh `re.search` of the source. -/
def searchMeta (text : List Char) : Option String :=
  searchCapture metaMatchAt text

/-- The anchor-tag `re.search` of the source. -/
def searchAnchor (text : List Char) : Option String :=
  searchCapture anchorMatchAt text

/-- The query component of a URL, as `urlparse` extracts it: the part
after the first `?`, with any `#fragment` first removed. -/
def urlQuery (url : String) : String :=
  let beforeFrag := url.data.takeWhile (fun c => c != '#')
  match beforeFrag.dropWhile (fun c => c != '?') with
  | [] => ""
  | _ :: t => String.mk t

/-- Value of a hexadecimal digit character. -/
def hexVal (c : Char) : Option ℕ :=
  if '0' ≤ c ∧ c ≤ '9' then some (c.toNat - '0'.toNat)
  else if 'a' ≤ c ∧ c ≤ 'f' then some (c.toNat - 'a'.toNat + 10)
  else if 'A' ≤ c ∧ c ≤ 'F' then some (c.toNat - 'A'.toNat + 10)
  else none

/-- Python's `unquote_plus`: `+` becomes a space and `%XX` decodes to the
character with that code; a malformed `%` escape is kept verbatim. -/
def unquotePlus : List Char → List Char
  | [] => []
  | '+' :: t => ' ' :: unquotePlus t
  | '%' :: a :: b :: t2 =>
    match hexVal a, hexVal b with
    | some x, some y => Char.ofNat (16 * x + y) :: unquotePlus t2
    | _, _ => '%' :: unquotePlus (a :: b :: t2)
  | '%' :: t => '%' :: unquotePlus t
  | c :: t => c :: unquotePlus t

/-- Python's `str.partition('=')` applied to a query pair: the part before
the first `=` and the part after it (empty when there is no `=`). -/
def partitionEq (l : List Char) : List Char × List Char :=
  match l.dropWhile (fun c => c != '=') with
  | [] => (l.takeWhile (fun c => c != '='), [])
  | _ :: t => (l.takeWhile (fun c => c != '='), t)

/-- Python's `str.split('&')`: split on every `&`, keeping empty pieces. -/
def splitAmp (l : List Char) : List (List Char) :=
  match l with
  | [] => [[]]
  | c :: cs =>
    let r := splitAmp cs
    if c = '&' then [] :: r
    else
      match r with
      | [] => [[c]]
      | h :: t => (c :: h) :: t

/-- `parse_qs(query)['jobidno'][0]` as the source uses it: split the query
on `&`, keep pairs with a non-empty value (`keep_blank_values` is false),
decode name and value with `unquote_plus`, and return the first value
whose name is `jobidno`, if any. -/
def queryJobidno (query : String) : Option String :=
  (splitAmp query.data).findSome? fun pair =>
    let nv := partitionEq pair
    if nv.2 ≠ [] ∧ String.mk (unquotePlus nv.1) = "jobidno" then
      some (String.mk (unquotePlus nv.2))
    else none

/-- The three-tier identifier extraction applied to step 4's response text
and final resolved URL: meta-refresh regex first, then anchor regex, then
the `jobidno` query parameter of the final URL. -/
def extractJobId (text url : String) : Option String :=
  match searchMeta text.data with
  | some jid => some jid
  | none =>
    match searchAnchor text.data with
    | some jid => some jid
    | none => queryJobidno (urlQuery url)

/-! ## HTTP model and the submission workflow -/

/-- A POST request as issued by the workflow: endpoint, form body, and the
`Referer` header (the remaining headers are a fixed browser-identifying
set shared by every step). -/
structure Request where
  url : String
  body : String
  referer : String
deriving DecidableEq

/-- A response to a step request: final status code after redirects, body
text, and the final resolved URL. -/
structure HttpResponse where
  status : ℕ
  text : String
  finalUrl : String
deriving DecidableEq

/-- Outcome of handing a request to the transport: a response, or a
`requests.exceptions.RequestException` carrying a message. -/
inductive ReqResult where
  | response (r : HttpResponse)
  | failure (msg : String)

/-- `Response.raise_for_status` of the requests library raises exactly for
status codes 400-599. -/
def isHttpError (status : ℕ) : Bool :=
  400 ≤ status && status < 600

/-- One `session.post(...)` followed by `raise_for_status()`: the response,
or the message of the raised `RequestException`. -/
def stepPost (transport : Request → ReqResult) (req : Request) :
    Except String HttpResponse :=
  match transport req with
  | .failure e => .error e
  | .response r =>
    if isHttpError r.status then .error (toString r.status ++ " Error")
    else .ok r

def url1 : String := "https://www.ready.noaa.gov/hypub-bin/trajasrc.pl"

def url2 : String := "https://www.ready.noaa.gov/hypub-bin/trajsrcm.pl"

def url3 : String := "https://www.ready.noaa.gov/hypub-bin/traj1.pl"

def url4 : String := "https://www.ready.noaa.gov/hypub-bin/traj2.pl"

def referer1 : String :=
  "https://www.ready.noaa.gov/hypub-bin/trajtype.pl?runtype=archive"

def data1 : String := "nsrc=1&trjtype=1"

/-- `'N' if latitude >= 0 else 'S'`. -/
def lat_ns (latitude : ℚ) : String := if 0 ≤ latitude then "N" else "S"

/-- `'E' if longitude >= 0 else 'W'`. -/
def lon_ew (longitude : ℚ) : String := if 0 ≤ longitude then "E" else "W"

/-- The step-2 form body: hemisphere-split coordinates with absolute
magnitudes rendered by `:.6f`. -/
def data2 (latitude longitude : ℚ) : String :=
  "metdata=GDAS1&SOURCELOC=decdegree&Lat=" ++ format6 |latitude|
    ++ "&Latns=" ++ lat_ns latitude
    ++ "&Lon=" ++ format6 |longitude| ++ "&Lonew=" ++ lon_ew longitude
    ++ "&Latd=&Latm=&Lats=&Latdns=N&Lond=&Lonm=&Lons=&Londew=W&CITYNAME=&WMO="

/-- The step-4 form body: the full parameter set, with the signed
coordinates rendered by `:.6f` and the date/time fields interpolated by
`str`. -/
def data4 (latitude longitude : ℚ) (ys : String) (month day hour : ℤ) :
    String :=
  "direction=Backward&vertical=0&Start+year=" ++ ys
    ++ "&Start+month=" ++ toString month
    ++ "&Start+day=" ++ toString day
    ++ "&Start+hour=" ++ toString hour
    ++ "&duration=168&repeatsrc=0&ntrajs=24&Source+lat=" ++ format6 latitude
    ++ "&Source+lon=" ++ format6 longitude
    ++ "&Source+lat2=&Source+lon2=&Source+lat3=&Source+lon3="
    ++ "&Midlayer+height=No&Source+hgt1=500&Source+hunit=0&Source+hgt2=0"
    ++ "&Source+hgt3=0&gis=1&gsize=96&Zoom+Factor=70&projection=0"
    ++ "&Vertical+Unit=1&Label+Interval=6&color=Yes&colortype=Yes"
    ++ "&pltsrc=1&circle=-1&county=arlmap&psfile=No&pdffile=Yes&mplot=YES"
    ++ "&rain=1"

/-- The step-1 request. -/
def req1 : Request := ⟨url1, data1, referer1⟩

/-- The step-2 request (its `Referer` is step 1's endpoint). -/
def req2 (latitude longitude : ℚ) : Request :=
  ⟨url2, data2 latitude longitude, url1⟩

/-- The step-3 request (its `Referer` is step 2's endpoint). -/
def req3 (mfile : String) : Request := ⟨url3, "mfile=" ++ mfile, url2⟩

/-- The step-4 request (its `Referer` is step 3's endpoint). -/
def req4 (latitude longitude : ℚ) (ys : String) (month day hour : ℤ) :
    Request :=
  ⟨url4, data4 latitude longitude ys month day hour, url3⟩

/-- Observable outcome of `run_hysplit_job`: the Python return value
`(job_id, session)`, the list of requests issued, and the printed log. -/
structure RunOutput where
  ret : Option String × Option Unit
  requests : List Request
  log : List String
deriving DecidableEq

/-- `run_hysplit_job`: validate and derive, then POST steps 1-4 in order,
aborting on the first failure, then extract the job identifier from step
4's response. -/
def run_hysplit_job (transport : Request → ReqResult)
    (latitude longitude : ℚ)
    (start_year start_month start_day start_hour : ℤ) : RunOutput :=
  match validateDerive start_year start_month start_day with
  | .error e => ⟨(none, none), [], ["Input validation error: " ++ e]⟩
  | .ok (month_abbr, week_num, year_str) =>
    match stepPost transport req1 with
    | .error e =>
      ⟨(none, none), [req1],
        ["Using meteorological data file: "
            ++ mfileName month_abbr year_str week_num,
          "Error during step 1: " ++ e]⟩
    | .ok _ =>
      match stepPost transport (req2 latitude longitude) with
      | .error e =>
        ⟨(none, none), [req1, req2 latitude longitude],
          ["Using meteorological data file: "
              ++ mfileName month_abbr year_str week_num,
            "Error during step 2: " ++ e]⟩
      | .ok _ =>
        match stepPost transport
            (req3 (mfileName month_abbr year_str week_num)) with
        | .error e =>
          ⟨(none, none),
            [req1, req2 latitude longitude,
              req3 (mfileName month_abbr year_str week_num)],
            ["Using meteorological data file: "
                ++ mfileName month_abbr year_str week_num,
              "Error during step 3: " ++ e]⟩
        | .ok _ =>
          match stepPost transport (req4 latitude longitude year_str
              start_month start_day start_hour) with
          | .error e =>
            ⟨(none, none),
              [req1, req2 latitude longitude,
                req3 (mfileName month_abbr year_str week_num),
                req4 latitude longitude year_str start_month start_day
                  start_hour],
              ["Using meteorological data file: "
                  ++ mfileName month_abbr year_str week_num,
                "Error during step 4 (Job Submission): " ++ e]⟩
          | .ok resp4 =>
            if resp4.text = "" then
              ⟨(none, none),
                [req1, req2 latitude longitude,
                  req3 (mfileName month_abbr year_str week_num),
                  req4 latitude longitude year_str start_month start_day
                    start_hour],
                ["Using meteorological data file: "
                    ++ mfileName month_abbr year_str week_num,
                  "No response content received from job submission."]⟩
            else
              match extractJobId resp4.text resp4.finalUrl with
              | some job_id =>
                ⟨(some job_id, some ()),
                  [req1, req2 latitude longitude,
                    req3 (mfileName month_abbr year_str week_num),
                    req4 latitude longitude year_str start_month start_day
                      start_hour],
                  ["Using meteorological data file: "
                      ++ mfileName month_abbr year_str week_num,
                    "Found job ID: " ++ job_id]⟩
              | none =>
                ⟨(none, none),
                  [req1, req2 latitude longitude,
                    req3 (mfileName month_abbr year_str week_num),
                    req4 latitude longitude year_str start_month start_day
                      start_hour],
                  ["Using meteorological data file: "
                      ++ mfileName month_abbr year_str week_num,
                    "Could not find job ID in response HTML or URL."]⟩

/-! ## Artifact retrieval (`download_results`) -/

/-- A response to the artifact GET: status after redirects, declared
content type, the chunks successfully streamed, and whether the stream
raised after those chunks (a mid-transfer interruption). -/
structure GetResponse where
  status : ℕ
  contentType : String
  chunks : List String
  interrupted : Bool

/-- Outcome of the artifact GET at transport level. -/
inductive GetResult where
  | response (r : GetResponse)
  | failure (msg : String)

/-- Observable outcome of `download_results`: the Python return value,
whether the fixed 10-second wait ran, the GET requests issued, the files
present on disk afterwards (name and content), and the printed log. -/
structure DownloadOutput where
  ret : Option String
  slept : Bool
  requests : List String
  files : List (String × String)
  log : List String
deriving DecidableEq

/-- `download_results`: guard against falsy arguments, wait 10 seconds,
GET `gis_<id>.zip` streaming it to disk, warn on an unexpected content
type, and return the file name on success and `None` on any failure.  The
destination file is opened before streaming, so an interrupted stream
leaves the partially written file behind. -/
def download_results (transport : String → GetResult)
    (job_id : Option String) (session : Option Unit) : DownloadOutput :=
  if job_id = none ∨ job_id = some "" ∨ session = none then
    ⟨none, false, [], [], ["Invalid job ID or session for download."]⟩
  else
    match transport ("https://www.ready.noaa.gov/hypubout/gis_"
        ++ job_id.getD "" ++ ".zip") with
    | .failure e =>
      ⟨none, true,
        ["https://www.ready.noaa.gov/hypubout/gis_"
          ++ job_id.getD "" ++ ".zip"], [],
        ["Error downloading results for job " ++ job_id.getD ""
          ++ ": " ++ e]⟩
    | .response r =>
      if isHttpError r.status then
        ⟨none, true,
          ["https://www.ready.noaa.gov/hypubout/gis_"
            ++ job_id.getD "" ++ ".zip"], [],
          ["Error downloading results for job " ++ job_id.getD ""
            ++ ": " ++ toString r.status ++ " Error"]⟩
      else
        if r.interrupted then
          ⟨none, true,
            ["https://www.ready.noaa.gov/hypubout/gis_"
              ++ job_id.getD "" ++ ".zip"],
            [("gis_" ++ job_id.getD "" ++ ".zip", String.join r.chunks)],
            (if containsStr (lowerStr r.contentType) "application/zip"
                || containsStr (lowerStr r.contentType)
                  "application/octet-stream" then ([] : List String)
              else
                ["Warning: Unexpected content-type. Proceeding with download."])
              ++ ["An unexpected error occurred during download"]⟩
        else
          ⟨some ("gis_" ++ job_id.getD "" ++ ".zip"), true,
            ["https://www.ready.noaa.gov/hypubout/gis_"
              ++ job_id.getD "" ++ ".zip"],
            [("gis_" ++ job_id.getD "" ++ ".zip", String.join r.chunks)],
            (if containsStr (lowerStr r.contentType) "application/zip"
                || containsStr (lowerStr r.contentType)
                  "application/octet-stream" then ([] : List String)
              else
                ["Warning: Unexpected content-type. Proceeding with download."])
              ++ ["Successfully downloaded results to: gis_"
                ++ job_id.getD "" ++ ".zip"]⟩

/-! ## Helper lemmas -/

theorem data_append (s t : String) : (s ++ t).data = s.data ++ t.data := by
  cases s; cases t; rfl

theorem strAppend_assoc (a b c : String) : a ++ b ++ c = a ++ (b ++ c) := by
  cases a; cases b; cases c
  show String.mk _ = String.mk _
  exact congrArg String.mk (List.append_assoc _ _ _)

theorem containsStr_of_eq_append (s a mid b : String)
    (h : s = a ++ mid ++ b) : containsStr s mid = true := by
  subst h
  unfold containsStr
  rw [data_append, data_append, List.append_assoc]
  exact containsSub_of_append _ _ _

theorem get_month_abbr_error (m : ℤ) (h : m < 1 ∨ 12 < m) :
    get_month_abbr m =
      .error "Invalid month provided. Must be between 1 and 12." := by
  unfold get_month_abbr
  rw [if_neg (by omega : ¬(1 ≤ m ∧ m ≤ 12))]

theorem get_gdas_week_num_error (d : ℤ) (h : d < 1 ∨ 31 < d) :
    get_gdas_week_num d =
      .error "Invalid day provided. Must be between 1 and 31." := by
  unfold get_gdas_week_num
  rw [if_neg (by omega : ¬(1 ≤ d ∧ d ≤ 7)),
    if_neg (by omega : ¬(8 ≤ d ∧ d ≤ 14)),
    if_neg (by omega : ¬(15 ≤ d ∧ d ≤ 21)),
    if_neg (by omega : ¬(22 ≤ d ∧ d ≤ 28)),
    if_neg (by omega : ¬(29 ≤ d ∧ d ≤ 31))]

theorem validateDerive_error_month (y m d : ℤ) (h : m < 1 ∨ 12 < m) :
    validateDerive y m d =
      .error "Invalid month provided. Must be between 1 and 12." := by
  unfold validateDerive
  rw [get_month_abbr_error m h]

theorem validateDerive_error_day (y m d : ℤ) (h : d < 1 ∨ 31 < d) :
    ∃ e, validateDerive y m d = .error e := by
  unfold validateDerive
  cases habbr : get_month_abbr m with
  | error e => exact ⟨e, rfl⟩
  | ok a =>
    exact ⟨"Invalid day provided. Must be between 1 and 31.",
      by simp only [get_gdas_week_num_error d h]⟩

theorem run_of_validateDerive_error (t : Request → ReqResult)
    (lat lon : ℚ) (y m d hr : ℤ) (e : String)
    (hv : validateDerive y m d = .error e) :
    run_hysplit_job t lat lon y m d hr =
      ⟨(none, none), [], ["Input validation error: " ++ e]⟩ := by
  unfold run_hysplit_job
  rw [hv]

theorem validateDerive_ok (y m d : ℤ) (abbr : String) (week : ℕ)
    (hm : get_month_abbr m = .ok abbr)
    (hd : get_gdas_week_num d = .ok week) :
    validateDerive y m d = .ok (abbr, week, yearStr y) := by
  unfold validateDerive
  rw [hm, hd]

/-! ## Fixtures: concrete response shapes from the specification -/

/-- A step-4 response body carrying the job id only in a meta-refresh
tag. -/
def metaFixture : String :=
  "<html><head><META HTTP-EQUIV=\"refresh\" CONTENT=\"2; URL=https://www.ready.noaa.gov/hypub-bin/trajresults.pl?jobidno=12345\"></head></html>"

/-- A step-4 response body carrying the job id only in an anchor tag. -/
def anchorFixture : String :=
  "<html><body><a href=\"/hypub-bin/trajresults.pl?jobidno=67890\">Results</a></body></html>"

/-- A step-4 response body carrying the job id both in a meta-refresh tag
and in an anchor tag, with different values. -/
def bothFixture : String :=
  "<html><head><META HTTP-EQUIV=\"refresh\" CONTENT=\"2; URL=https://www.ready.noaa.gov/hypub-bin/trajresults.pl?jobidno=12345\"></head><body><a href=\"/hypub-bin/trajresults.pl?jobidno=67890\">Results</a></body></html>"

/-- A step-4 response body carrying no job id at all. -/
def plainFixture : String := "<html><body>Job submitted.</body></html>"

/-- A final resolved URL carrying a `jobidno` query parameter. -/
def urlWithJob : String :=
  "https://www.ready.noaa.gov/hypub-bin/trajresults.pl?jobidno=555"

/-- A final resolved URL with no query string. -/
def urlPlain : String := "https://www.ready.noaa.gov/hypub-bin/traj2.pl"

/-! ## C1 -/

/-- C1: identifier extraction tries three strategies in priority order with
first match winning — the meta-refresh regex, then the anchor regex, then
the `jobidno` query parameter of the final resolved URL — and fails (no
identifier) only when all three fail; on the specification's concrete
shapes it returns `12345`, `67890`, `555` and failure respectively. -/
theorem C1_extraction_three_tiers :
    (∀ text url d, searchMeta text.data = some d →
      extractJobId text url = some d) ∧
    (∀ text url d, searchMeta text.data = none →
      searchAnchor text.data = some d → extractJobId text url = some d) ∧
    (∀ text url v, searchMeta text.data = none →
      searchAnchor text.data = none →
      queryJobidno (urlQuery url) = some v → extractJobId text url = some v) ∧
    (∀ text url, searchMeta text.data = none →
      searchAnchor text.data = none →
      queryJobidno (urlQuery url) = none → extractJobId text url = none) ∧
    extractJobId metaFixture urlPlain = some "12345" ∧
    extractJobId anchorFixture urlPlain = some "67890" ∧
    extractJobId plainFixture urlWithJob = some "555" ∧
    extractJobId plainFixture urlPlain = none ∧
    extractJobId bothFixture urlWithJob = some "12345" ∧
    extractJobId anchorFixture urlWithJob = some "67890" := by
  refine ⟨?_, ?_, ?_, ?_, ?_, ?_, ?_, ?_, ?_, ?_⟩
  · intro text url d h
    unfold extractJobId
    rw [h]
  · intro text url d h1 h2
    unfold extractJobId
    rw [h1, h2]
  · intro text url v h1 h2 h3
    unfold extractJobId
    rw [h1, h2, h3]
  · intro text url h1 h2 h3
    unfold extractJobId
    rw [h1, h2, h3]
  all_goals rfl

/-- Witness for C1: the tiers applied at concrete inputs. -/
theorem C1_extraction_three_tiers_witness :
    extractJobId bothFixture urlWithJob = some "12345" ∧
    extractJobId plainFixture urlWithJob = some "555" :=
  ⟨C1_extraction_three_tiers.1 bothFixture urlWithJob "12345" rfl,
   C1_extraction_three_tiers.2.2.1 plainFixture urlWithJob "555" rfl rfl rfl⟩

/-! ## C3 -/

/-- C3: for every startDay in [1,31] the derived week number is 1 for days
1-7, 2 for 8-14, 3 for 15-21, 4 for 22-28 and 5 for 29-31; for every
startDay outside [1,31] the submission fails with the local validation
error, issuing no request. -/
theorem C3_week_number_buckets (day : ℤ) :
    (1 ≤ day ∧ day ≤ 7 → get_gdas_week_num day = .ok 1) ∧
    (8 ≤ day ∧ day ≤ 14 → get_gdas_week_num day = .ok 2) ∧
    (15 ≤ day ∧ day ≤ 21 → get_gdas_week_num day = .ok 3) ∧
    (22 ≤ day ∧ day ≤ 28 → get_gdas_week_num day = .ok 4) ∧
    (29 ≤ day ∧ day ≤ 31 → get_gdas_week_num day = .ok 5) ∧
    (day < 1 ∨ 31 < day →
      ∀ (t : Request → ReqResult) (lat lon : ℚ) (year month hour : ℤ),
        (run_hysplit_job t lat lon year month day hour).ret = (none, none) ∧
        (run_hysplit_job t lat lon year month day hour).requests = [] ∧
        ∃ e, (run_hysplit_job t lat lon year month day hour).log =
          ["Input validation error: " ++ e]) := by
  refine ⟨?_, ?_, ?_, ?_, ?_, ?_⟩
  · intro h
    unfold get_gdas_week_num
    rw [if_pos h]
  · intro h
    unfold get_gdas_week_num
    rw [if_neg (by omega : ¬(1 ≤ day ∧ day ≤ 7)), if_pos h]
  · intro h
    unfold get_gdas_week_num
    rw [if_neg (by omega : ¬(1 ≤ day ∧ day ≤ 7)),
      if_neg (by omega : ¬(8 ≤ day ∧ day ≤ 14)), if_pos h]
  · intro h
    unfold get_gdas_week_num
    rw [if_neg (by omega : ¬(1 ≤ day ∧ day ≤ 7)),
      if_neg (by omega : ¬(8 ≤ day ∧ day ≤ 14)),
      if_neg (by omega : ¬(15 ≤ day ∧ day ≤ 21)), if_pos h]
  · intro h
    unfold get_gdas_week_num
    rw [if_neg (by omega : ¬(1 ≤ day ∧ day ≤ 7)),
      if_neg (by omega : ¬(8 ≤ day ∧ day ≤ 14)),
      if_neg (by omega : ¬(15 ≤ day ∧ day ≤ 21)),
      if_neg (by omega : ¬(22 ≤ day ∧ day ≤ 28)), if_pos h]
  · intro h t lat lon year month hour
    obtain ⟨e, he⟩ := validateDerive_error_day year month day h
    rw [run_of_validateDerive_error t lat lon year month day hour e he]
    exact ⟨rfl, rfl, e, rfl⟩

/-- Witness for C3: day 29 gives week 5; day 32 aborts locally. -/
theorem C3_week_number_buckets_witness :
    get_gdas_week_num 29 = .ok 5 ∧
    (run_hysplit_job (fun _ => .failure "down") 41.98 (-87.9)
      22 10 32 22).requests = [] := by
  constructor
  · exact (C3_week_number_buckets 29).2.2.2.2.1 (by omega)
  · exact ((C3_week_number_buckets 32).2.2.2.2.2 (by omega)
      (fun _ => .failure "down") 41.98 (-87.9) 22 10 22).2.1

/-! ## C5 -/

/-- C5: a startMonth outside [1,12] or a startDay outside [1,31] makes the
submission fail locally with the validation error: no HTTP request is
issued to any endpoint and the return value is the failure sentinel. -/
theorem C5_invalid_params_no_network (t : Request → ReqResult)
    (lat lon : ℚ) (year month day hour : ℤ)
    (h : month < 1 ∨ 12 < month ∨ day < 1 ∨ 31 < day) :
    (run_hysplit_job t lat lon year month day hour).ret = (none, none) ∧
    (run_hysplit_job t lat lon year month day hour).requests = [] ∧
    ∃ e, (run_hysplit_job t lat lon year month day hour).log =
      ["Input validation error: " ++ e] := by
  have hv : ∃ e, validateDerive year month day = .error e := by
    rcases h with h | h | h | h
    · exact ⟨_, validateDerive_error_month year month day (Or.inl h)⟩
    · exact ⟨_, validateDerive_error_month year month day (Or.inr h)⟩
    · exact validateDerive_error_day year month day (Or.inl h)
    · exact validateDerive_error_day year month day (Or.inr h)
  obtain ⟨e, he⟩ := hv
  rw [run_of_validateDerive_error t lat lon year month day hour e he]
  exact ⟨rfl, rfl, e, rfl⟩

/-- Witness for C5: month 13 aborts with no request issued. -/
theorem C5_invalid_params_no_network_witness :
    (run_hysplit_job (fun _ => .failure "down") 41.98 (-87.9)
      22 13 29 22).requests = [] :=
  (C5_invalid_params_no_network (fun _ => .failure "down") 41.98 (-87.9)
    22 13 29 22 (by omega)).2.1

/-! ## C6 -/

/-- C6: in the step-2 body the latitude hemisphere field is `N` for
latitude ≥ 0 and `S` otherwise, the longitude hemisphere field is `E` for
longitude ≥ 0 and `W` otherwise, and the transmitted magnitudes are the
absolute values (non-negative) rendered with exactly six decimal digits. -/
theorem C6_hemisphere_split (lat lon : ℚ) :
    (0 ≤ lat → lat_ns lat = "N") ∧ (lat < 0 → lat_ns lat = "S") ∧
    (0 ≤ lon → lon_ew lon = "E") ∧ (lon < 0 → lon_ew lon = "W") ∧
    (0 : ℚ) ≤ |lat| ∧ (0 : ℚ) ≤ |lon| ∧
    fracLen (format6 |lat|) = 6 ∧ fracLen (format6 |lon|) = 6 ∧
    data2 lat lon =
      "metdata=GDAS1&SOURCELOC=decdegree&Lat=" ++ format6 |lat|
        ++ "&Latns=" ++ lat_ns lat
        ++ "&Lon=" ++ format6 |lon| ++ "&Lonew=" ++ lon_ew lon
        ++ "&Latd=&Latm=&Lats=&Latdns=N&Lond=&Lonm=&Lons=&Londew=W&CITYNAME=&WMO=" := by
  refine ⟨?_, ?_, ?_, ?_, abs_nonneg lat, abs_nonneg lon,
    fracLen_format6 _, fracLen_format6 _, rfl⟩
  · intro h
    unfold lat_ns
    rw [if_pos h]
  · intro h
    unfold lat_ns
    rw [if_neg (not_le.mpr h)]
  · intro h
    unfold lon_ew
    rw [if_pos h]
  · intro h
    unfold lon_ew
    rw [if_neg (not_le.mpr h)]

/-- Witness for C6 at the default coordinates. -/
theorem C6_hemisphere_split_witness :
    lat_ns 41.98 = "N" ∧ lon_ew (-87.9) = "W" :=
  ⟨(C6_hemisphere_split 41.98 (-87.9)).1 (by norm_num),
   (C6_hemisphere_split 41.98 (-87.9)).2.2.2.1 (by norm_num)⟩

/-! ## Transports used as concrete scenarios -/

/-- A transport on which every step succeeds with status 200 and a
non-empty body carrying no job id. -/
def okTransport : Request → ReqResult := fun _ => .response ⟨200, "x", ""⟩

/-- A transport that answers every request with status 300 (non-2xx, but
not an error for `raise_for_status`). -/
def status300Transport : Request → ReqResult :=
  fun _ => .response ⟨300, "", ""⟩

/-- A transport failing at step 1's endpoint with a connection error and
succeeding elsewhere. -/
def failStep1Transport : Request → ReqResult := fun r =>
  if r.url = url1 then .failure "Connection aborted" else .response ⟨200, "", ""⟩

/-- A transport failing at step 3's endpoint with a connection error and
succeeding elsewhere. -/
def failStep3Transport : Request → ReqResult := fun r =>
  if r.url = url3 then .failure "Connection aborted" else .response ⟨200, "", ""⟩

/-! ## C4 -/

set_option maxRecDepth 8000 in
/-- The step-4 body at the default parameters, fully evaluated. -/
theorem data4_default_eval :
    data4 41.98 (-87.9) "22" 10 29 22 =
      "direction=Backward&vertical=0&Start+year=22&Start+month=10&Start+day=29&Start+hour=22&duration=168&repeatsrc=0&ntrajs=24&Source+lat=41.980000&Source+lon=-87.900000&Source+lat2=&Source+lon2=&Source+lat3=&Source+lon3=&Midlayer+height=No&Source+hgt1=500&Source+hunit=0&Source+hgt2=0&Source+hgt3=0&gis=1&gsize=96&Zoom+Factor=70&projection=0&Vertical+Unit=1&Label+Interval=6&color=Yes&colortype=Yes&pltsrc=1&circle=-1&county=arlmap&psfile=No&pdffile=Yes&mplot=YES&rain=1" := by
  unfold data4
  rw [format6_lat_default, format6_lon_default]
  decide

set_option maxRecDepth 8000 in
/-- C4 as stated fails on the code: for year 22, month 10, day 29 the
derived data file name is `gdas1.oct22.w5` (day 29 falls in the 29-31
bucket, week 5), not `gdas1.oct22.w4`; and the step-4 body contains the
form-encoded `Source+lat=...` / `Source+lon=...`, never the space-separated
`Source lat=...` / `Source lon=...` literally. -/
theorem C4_counterexample :
    dataFileName 22 10 29 = some "gdas1.oct22.w5" ∧
    "gdas1.oct22.w5" ≠ "gdas1.oct22.w4" ∧
    containsStr (data4 41.98 (-87.9) "22" 10 29 22)
      "Source lat=41.980000" = false ∧
    containsStr (data4 41.98 (-87.9) "22" 10 29 22)
      "Source lon=-87.900000" = false := by
  refine ⟨by decide, by decide, ?_, ?_⟩ <;>
    rw [data4_default_eval] <;> decide

set_option maxRecDepth 8000 in
/-- C4 amended: for the default parameters the derived data file name is
`gdas1.oct22.w5` (day 29 maps to week 5), the step-4 body contains
`Source+lat=41.980000` and `Source+lon=-87.900000` (spaces form-encoded as
`+`; signed longitude, 6 decimal digits), and a full run uses exactly
these bodies. -/
theorem C4_end_to_end_amended :
    dataFileName 22 10 29 = some "gdas1.oct22.w5" ∧
    containsStr (data4 41.98 (-87.9) "22" 10 29 22)
      "Source+lat=41.980000" = true ∧
    containsStr (data4 41.98 (-87.9) "22" 10 29 22)
      "Source+lon=-87.900000" = true ∧
    (run_hysplit_job okTransport 41.98 (-87.9) 22 10 29 22).requests.map
        Request.body =
      [data1, data2 41.98 (-87.9), "mfile=" ++ "gdas1.oct22.w5",
        data4 41.98 (-87.9) "22" 10 29 22] := by
  refine ⟨by decide, ?_, ?_, rfl⟩ <;>
    rw [data4_default_eval] <;> decide

/-! ## C2 -/

/-- C2 as stated fails on the code: a non-2xx status that is not 4xx/5xx
does not abort.  On a transport answering status 300 everywhere, step 1
returns a non-2xx status, yet requests are issued to the endpoints of
steps 2, 3 and 4 and no step-failure message is logged. -/
theorem C2_counterexample :
    (∃ r, status300Transport req1 = .response r ∧
      ¬(200 ≤ r.status ∧ r.status ≤ 299)) ∧
    (run_hysplit_job status300Transport 41.98 (-87.9) 22 10 29 22).requests =
      [req1, req2 41.98 (-87.9), req3 "gdas1.oct22.w5",
        req4 41.98 (-87.9) "22" 10 29 22] ∧
    (run_hysplit_job status300Transport 41.98 (-87.9) 22 10 29 22).log =
      ["Using meteorological data file: gdas1.oct22.w5",
        "No response content received from job submission."] := by
  exact ⟨⟨⟨300, "", ""⟩, rfl, by decide⟩, rfl, rfl⟩

/-- C2 amended: for each step k in 1..3, when the steps before k succeed
and step k raises (a transport failure, or a 4xx/5xx status through
`raise_for_status`), the run aborts returning the failure sentinel, logs
an error naming step k, and issues no request to any later step's
endpoint. -/
theorem C2_step_failure_aborts (t : Request → ReqResult) (lat lon : ℚ)
    (year month day hour : ℤ) (abbr : String) (week : ℕ)
    (hm : get_month_abbr month = .ok abbr)
    (hd : get_gdas_week_num day = .ok week) :
    (∀ e, stepPost t req1 = .error e →
      run_hysplit_job t lat lon year month day hour =
        ⟨(none, none), [req1],
          ["Using meteorological data file: "
              ++ mfileName abbr (yearStr year) week,
            "Error during step 1: " ++ e]⟩) ∧
    (∀ r1 e, stepPost t req1 = .ok r1 →
      stepPost t (req2 lat lon) = .error e →
      run_hysplit_job t lat lon year month day hour =
        ⟨(none, none), [req1, req2 lat lon],
          ["Using meteorological data file: "
              ++ mfileName abbr (yearStr year) week,
            "Error during step 2: " ++ e]⟩) ∧
    (∀ r1 r2res e, stepPost t req1 = .ok r1 →
      stepPost t (req2 lat lon) = .ok r2res →
      stepPost t (req3 (mfileName abbr (yearStr year) week)) = .error e →
      run_hysplit_job t lat lon year month day hour =
        ⟨(none, none),
          [req1, req2 lat lon, req3 (mfileName abbr (yearStr year) week)],
          ["Using meteorological data file: "
              ++ mfileName abbr (yearStr year) week,
            "Error during step 3: " ++ e]⟩) := by
  have hv := validateDerive_ok year month day abbr week hm hd
  refine ⟨?_, ?_, ?_⟩
  · intro e h1
    unfold run_hysplit_job
    simp only [hv, h1]
  · intro r1 e h1 h2
    unfold run_hysplit_job
    simp only [hv, h1, h2]
  · intro r1 r2res e h1 h2 h3
    unfold run_hysplit_job
    simp only [hv, h1, h2, h3]

/-- Witness for C2: a transport failure at step 1 aborts with only step
1's request issued. -/
theorem C2_step_failure_aborts_witness :
    run_hysplit_job failStep1Transport 41.98 (-87.9) 22 10 29 22 =
      ⟨(none, none), [req1],
        ["Using meteorological data file: "
            ++ mfileName "oct" (yearStr 22) 5,
          "Error during step 1: Connection aborted"]⟩ :=
  (C2_step_failure_aborts failStep1Transport 41.98 (-87.9) 22 10 29 22
    "oct" 5 rfl rfl).1 "Connection aborted" rfl

/-! ## C7 -/

/-- C7 as stated fails on the code: distinct failure kinds are not
distinguishable in the returned value.  A transport failure at step 1, a
transport failure at step 3, and a local month-validation failure all
return exactly the same value `(None, None)`; the detail telling them
apart appears only in the printed log. -/
theorem C7_counterexample :
    (run_hysplit_job failStep1Transport 41.98 (-87.9) 22 10 29 22).ret =
      (run_hysplit_job failStep3Transport 41.98 (-87.9) 22 10 29 22).ret ∧
    (run_hysplit_job failStep1Transport 41.98 (-87.9) 22 10 29 22).ret =
      (run_hysplit_job failStep1Transport 41.98 (-87.9) 22 13 29 22).ret ∧
    (run_hysplit_job failStep1Transport 41.98 (-87.9) 22 10 29 22).ret =
      (none, none) ∧
    (run_hysplit_job failStep1Transport 41.98 (-87.9) 22 10 29 22).log ≠
      (run_hysplit_job failStep3Transport 41.98 (-87.9) 22 10 29 22).log := by
  exact ⟨rfl, rfl, rfl, by decide⟩

/-- C7 amended: every outcome of the workflow is either the success pair
(identifier and session) or the single undifferentiated failure sentinel
`(None, None)`; failures carry no structured detail in the returned value
(step and cause are only printed). -/
theorem C7_failures_share_sentinel (t : Request → ReqResult) (lat lon : ℚ)
    (year month day hour : ℤ) :
    (run_hysplit_job t lat lon year month day hour).ret = (none, none) ∨
    ∃ jid, (run_hysplit_job t lat lon year month day hour).ret =
      (some jid, some ()) := by
  unfold run_hysplit_job
  repeat' split
  all_goals first
    | exact Or.inl rfl
    | exact Or.inr ⟨_, rfl⟩

/-! ## C8 -/

/-- A retrieval transport whose stream is interrupted after one chunk. -/
def interruptedTransport : String → GetResult :=
  fun _ => .response ⟨200, "application/zip", ["PK-partial-"], true⟩

/-- C8 as stated fails on the code: when the download stream is
interrupted mid-transfer, `download_results` reports failure (returns
`None`) but the truncated destination file is left behind — it is not
removed on error. -/
theorem C8_counterexample :
    (download_results interruptedTransport (some "42") (some ())).ret =
      none ∧
    (download_results interruptedTransport (some "42") (some ())).files =
      [("gis_42.zip", "PK-partial-")] := by
  exact ⟨rfl, rfl⟩

/-- C8 amended: on a mid-transfer interruption `download_results` returns
`None`, but the destination file, created before streaming began, remains
on disk holding exactly the bytes transferred before the interruption. -/
theorem C8_partial_file_remains (t : String → GetResult) (jid : String)
    (r : GetResponse) (hjid : jid ≠ "")
    (ht : t ("https://www.ready.noaa.gov/hypubout/gis_" ++ jid ++ ".zip") =
      .response r)
    (hstatus : isHttpError r.status = false)
    (hint : r.interrupted = true) :
    (download_results t (some jid) (some ())).ret = none ∧
    (download_results t (some jid) (some ())).files =
      [("gis_" ++ jid ++ ".zip", String.join r.chunks)] := by
  unfold download_results
  rw [if_neg (by simp [hjid] :
    ¬(some jid = none ∨ some jid = some "" ∨ (some () : Option Unit) = none))]
  simp only [Option.getD_some]
  rw [ht]
  simp [hstatus, hint]

/-- Witness for C8: an interrupted stream leaves `gis_7.zip` behind with
the partial chunk. -/
theorem C8_partial_file_remains_witness :
    (download_results interruptedTransport (some "7") (some ())).ret =
      none ∧
    (download_results interruptedTransport (some "7") (some ())).files =
      [("gis_" ++ "7" ++ ".zip", String.join ["PK-partial-"])] :=
  C8_partial_file_remains interruptedTransport "7"
    ⟨200, "application/zip", ["PK-partial-"], true⟩ (by decide) rfl rfl rfl

/-! ## C9 -/

/-- C9: called with a falsy job id (`None` or the empty string) or a falsy
session, `download_results` returns `None` immediately: it does not
perform the 10-second wait, issues no HTTP request, and creates no file. -/
theorem C9_falsy_guard (t : String → GetResult) (job_id : Option String)
    (session : Option Unit)
    (h : job_id = none ∨ job_id = some "" ∨ session = none) :
    download_results t job_id session =
      ⟨none, false, [], [], ["Invalid job ID or session for download."]⟩ := by
  unfold download_results
  rw [if_pos h]

/-- Witness for C9: the `(None, None)` pair of a failed submission skips
wait, request and file creation. -/
theorem C9_falsy_guard_witness :
    download_results (fun _ => .failure "unreachable") none (some ()) =
      ⟨none, false, [], [], ["Invalid job ID or session for download."]⟩ :=
  C9_falsy_guard (fun _ => .failure "unreachable") none (some ())
    (Or.inl rfl)

/-! ## C10 -/

/-- C10: no range validation is performed on latitude, longitude, hour or
year — for all their values validation succeeds and step 1 is reached —
and those values flow unmodified into the step-2 and step-4 bodies: the
step-2 body carries the 6-digit rendering of the coordinate magnitudes
with the hemisphere fields, and the step-4 body carries the signed
6-digit coordinates, the hour rendered by `str`, and the padded year. -/
theorem C10_no_range_validation (t : Request → ReqResult) (lat lon : ℚ)
    (year month day hour : ℤ) (abbr : String) (week : ℕ)
    (hm : get_month_abbr month = .ok abbr)
    (hd : get_gdas_week_num day = .ok week) :
    (run_hysplit_job t lat lon year month day hour).requests.head? =
      some req1 ∧
    (run_hysplit_job okTransport lat lon year month day
        hour).requests.map Request.body =
      [data1, data2 lat lon, "mfile=" ++ mfileName abbr (yearStr year) week,
        data4 lat lon (yearStr year) month day hour] ∧
    containsStr (data2 lat lon)
      ("Lat=" ++ format6 |lat| ++ "&Latns=" ++ lat_ns lat) = true ∧
    containsStr (data2 lat lon)
      ("&Lon=" ++ format6 |lon| ++ "&Lonew=" ++ lon_ew lon) = true ∧
    containsStr (data4 lat lon (yearStr year) month day hour)
      ("&Start+hour=" ++ toString hour) = true ∧
    containsStr (data4 lat lon (yearStr year) month day hour)
      ("&Source+lat=" ++ format6 lat ++ "&Source+lon=" ++ format6 lon) =
      true ∧
    containsStr (data4 lat lon (yearStr year) month day hour)
      ("Start+year=" ++ yearStr year) = true := by
  have hv := validateDerive_ok year month day abbr week hm hd
  refine ⟨?_, ?_, ?_, ?_, ?_, ?_, ?_⟩
  · unfold run_hysplit_job
    simp only [hv]
    repeat' split
    all_goals rfl
  · unfold run_hysplit_job
    simp only [hv]
    rfl
  · refine containsStr_of_eq_append _
      "metdata=GDAS1&SOURCELOC=decdegree&"
      ("Lat=" ++ format6 |lat| ++ "&Latns=" ++ lat_ns lat)
      ("&Lon=" ++ format6 |lon| ++ "&Lonew=" ++ lon_ew lon
        ++ "&Latd=&Latm=&Lats=&Latdns=N&Lond=&Lonm=&Lons=&Londew=W&CITYNAME=&WMO=")
      ?_
    unfold data2
    rw [show ("metdata=GDAS1&SOURCELOC=decdegree&Lat=" : String) =
      "metdata=GDAS1&SOURCELOC=decdegree&" ++ "Lat=" from rfl]
    simp only [strAppend_assoc]
  · refine containsStr_of_eq_append _
      ("metdata=GDAS1&SOURCELOC=decdegree&Lat=" ++ format6 |lat|
        ++ "&Latns=" ++ lat_ns lat)
      ("&Lon=" ++ format6 |lon| ++ "&Lonew=" ++ lon_ew lon)
      "&Latd=&Latm=&Lats=&Latdns=N&Lond=&Lonm=&Lons=&Londew=W&CITYNAME=&WMO="
      ?_
    unfold data2
    simp only [strAppend_assoc]
  · refine containsStr_of_eq_append _
      ("direction=Backward&vertical=0&Start+year=" ++ yearStr year
        ++ "&Start+month=" ++ toString month
        ++ "&Start+day=" ++ toString day)
      ("&Start+hour=" ++ toString hour)
      ("&duration=168&repeatsrc=0&ntrajs=24&Source+lat=" ++ format6 lat
        ++ "&Source+lon=" ++ format6 lon
        ++ "&Source+lat2=&Source+lon2=&Source+lat3=&Source+lon3="
        ++ "&Midlayer+height=No&Source+hgt1=500&Source+hunit=0&Source+hgt2=0"
        ++ "&Source+hgt3=0&gis=1&gsize=96&Zoom+Factor=70&projection=0"
        ++ "&Vertical+Unit=1&Label+Interval=6&color=Yes&colortype=Yes"
        ++ "&pltsrc=1&circle=-1&county=arlmap&psfile=No&pdffile=Yes&mplot=YES"
        ++ "&rain=1")
      ?_
    unfold data4
    simp only [strAppend_assoc]
  · refine containsStr_of_eq_append _
      ("direction=Backward&vertical=0&Start+year=" ++ yearStr year
        ++ "&Start+month=" ++ toString month
        ++ "&Start+day=" ++ toString day
        ++ "&Start+hour=" ++ toString hour
        ++ "&duration=168&repeatsrc=0&ntrajs=24")
      ("&Source+lat=" ++ format6 lat ++ "&Source+lon=" ++ format6 lon)
      ("&Source+lat2=&Source+lon2=&Source+lat3=&Source+lon3="
        ++ "&Midlayer+height=No&Source+hgt1=500&Source+hunit=0&Source+hgt2=0"
        ++ "&Source+hgt3=0&gis=1&gsize=96&Zoom+Factor=70&projection=0"
        ++ "&Vertical+Unit=1&Label+Interval=6&color=Yes&colortype=Yes"
        ++ "&pltsrc=1&circle=-1&county=arlmap&psfile=No&pdffile=Yes&mplot=YES"
        ++ "&rain=1")
      ?_
    unfold data4
    rw [show ("&duration=168&repeatsrc=0&ntrajs=24&Source+lat=" : String) =
      "&duration=168&repeatsrc=0&ntrajs=24" ++ "&Source+lat=" from rfl]
    simp only [strAppend_assoc]
  · refine containsStr_of_eq_append _
      "direction=Backward&vertical=0&"
      ("Start+year=" ++ yearStr year)
      ("&Start+month=" ++ toString month
        ++ "&Start+day=" ++ toString day
        ++ "&Start+hour=" ++ toString hour
        ++ "&duration=168&repeatsrc=0&ntrajs=24&Source+lat=" ++ format6 lat
        ++ "&Source+lon=" ++ format6 lon
        ++ "&Source+lat2=&Source+lon2=&Source+lat3=&Source+lon3="
        ++ "&Midlayer+height=No&Source+hgt1=500&Source+hunit=0&Source+hgt2=0"
        ++ "&Source+hgt3=0&gis=1&gsize=96&Zoom+Factor=70&projection=0"
        ++ "&Vertical+Unit=1&Label+Interval=6&color=Yes&colortype=Yes"
        ++ "&pltsrc=1&circle=-1&county=arlmap&psfile=No&pdffile=Yes&mplot=YES"
        ++ "&rain=1")
      ?_
    unfold data4
    rw [show ("direction=Backward&vertical=0&Start+year=" : String) =
      "direction=Backward&vertical=0&" ++ "Start+year=" from rfl]
    simp only [strAppend_assoc]

/-- Witness for C10: an out-of-range hour (99) and year (5) are accepted
and flow into the bodies. -/
theorem C10_no_range_validation_witness :
    (run_hysplit_job okTransport 1000 2000 5 10 29 99).requests.head? =
      some req1 ∧
    containsStr (data4 1000 2000 (yearStr 5) 10 29 99)
      ("&Start+hour=" ++ toString (99 : ℤ)) = true := by
  have h := C10_no_range_validation okTransport 1000 2000 5 10 29 99
    "oct" 5 rfl rfl
  exact ⟨h.1, h.2.2.2.2.1⟩

end Windscan
